import Mathlib

/-!
Verification development for `src/models/data-source-definition.js` of
loopback-workspace: a shallow embedding of the argument normalizer, the
worker invocation channel, the error classifier and the operation facade,
together with theorems settling the specification claims.

Conventions of the embedding:
- JS own-property collections are ordered key/value lists over opaque
  `String` values; lookup returns the first matching entry and assignment
  overwrites in place or appends, matching JS object semantics.
- `Option` models presence: `none` is `undefined`.
- The external `JSON.parse` collaborator is a parameter of type
  `String → Option ErrorData`; `none` models a thrown (and caught) parse
  failure.
- The worker process is represented by the list of messages it sends; the
  Node `EventEmitter.once` registration is modelled as a listener flag that
  is cleared when the listener fires.
-/

/-- JS own-property list: ordered key/value pairs. Lookup takes the first
matching key, mirroring JS object property access; values are opaque. -/
def getProp : List (String × String) → String → Option String
  | [], _ => none
  | (k1, v1) :: rest, k => if k1 = k then some v1 else getProp rest k

/-- JS property assignment `o[k] = v`: overwrite the existing entry in
place, or append a new entry at the end (JS insertion order). -/
def setProp : List (String × String) → String → String → List (String × String)
  | [], k, v => [(k, v)]
  | (k1, v1) :: rest, k, v =>
    if k1 = k then (k, v) :: rest else (k1, v1) :: setProp rest k v

/-- A JS `Error` object: its `message` plus its other own properties
(`name`, `code`, `origin`, `stack`, `details`, ...). -/
structure ErrObj where
  message : String
  props : List (String × String)
deriving DecidableEq, Repr

/-- Property read `e[k]`; `none` models `undefined`. -/
def ErrObj.get (e : ErrObj) (k : String) : Option String :=
  if k = "message" then some e.message else getProp e.props k

/-- Property write `e[k] = v`. -/
def ErrObj.set (e : ErrObj) (k : String) (v : String) : ErrObj :=
  if k = "message" then { e with message := v }
  else { e with props := setProp e.props k v }

/-- `new Error(msg)`. -/
def mkError (msg : String) : ErrObj := { message := msg, props := [] }

/-- JSON-serializable JS values as they appear in callback argument lists
and as the argument of the `testConnection` completion handler. -/
inductive JVal where
  | jnull : JVal
  | jundef : JVal
  | jbool : Bool → JVal
  | jstr : String → JVal
  | jerr : ErrObj → JVal
deriving DecidableEq, Repr

/-- JS truthiness of a `JVal`. -/
def truthy : JVal → Bool
  | JVal.jnull => false
  | JVal.jundef => false
  | JVal.jbool b => b
  | JVal.jstr s => !(s = "")
  | JVal.jerr _ => true

/-- Property read on a `JVal`: only error objects carry own properties;
reads on primitives yield `undefined` (`none`). -/
def jGet : JVal → String → Option String
  | JVal.jerr e, k => ErrObj.get e k
  | _, _ => none

/-- JS line terminators: the characters excluded by the regex
metacharacter dot. -/
def isLineTerminator (c : Char) : Bool :=
  c = '\n' || c = '\r' || c = '\u2028' || c = '\u2029'

/-- Greedy capture for a regex fragment consisting of a greedy dot-star
capture followed by the literal `suf`: the longest line-terminator-free
prefix of the input after which `suf` occurs (backtracking from longest to
shortest, as the JS engine does). -/
def greedyCap (suf : List Char) : List Char → Option (List Char)
  | [] => if List.isPrefixOf suf ([] : List Char) then some [] else none
  | c :: cs =>
    if isLineTerminator c then
      if List.isPrefixOf suf (c :: cs) then some [] else none
    else
      match greedyCap suf cs with
      | some s => some (c :: s)
      | none => if List.isPrefixOf suf (c :: cs) then some [] else none

/-- Leftmost match of the regex `pre(.*)suf` under JS `String.match`
semantics: start positions are tried left to right; at each occurrence of
`pre` the greedy capture is attempted; on failure the start advances one
character. Returns the capture group. -/
def matchPattern (pre suf : List Char) : List Char → Option (List Char)
  | [] => none
  | c :: cs =>
    if List.isPrefixOf pre (c :: cs) then
      match greedyCap suf (List.drop (List.length pre) (c :: cs)) with
      | some s => some s
      | none => matchPattern pre suf cs
    else matchPattern pre suf cs

/-- Capture group of the regex used by `missingConnector`, which requires
the text `LoopBack connector "` before and `" is not installed` after the
captured connector name. -/
def missingConnectorMatch (msg : String) : Option String :=
  (matchPattern ("LoopBack connector \"".toList) ("\" is not installed".toList)
      msg.toList).map String.mk

/-- True when the list holds none of the JS line separators that neither
the regex dot nor the class of CR and LF can match. -/
def noJsLineSep (l : List Char) : Bool :=
  l.all fun c => !(c = '\u2028' || c = '\u2029')

/-- Leftmost match of the structured-error regex: the text after the first
occurrence of the marker whose remainder (the capture, anchored to the end
of the string) contains no line separator outside CR and LF. -/
def findAfter (marker : List Char) : List Char → Option (List Char)
  | [] => none
  | c :: cs =>
    if List.isPrefixOf marker (c :: cs)
        && noJsLineSep (List.drop (List.length marker) (c :: cs)) then
      some (List.drop (List.length marker) (c :: cs))
    else findAfter marker cs

/-- The structured-error delimiter marker of the worker protocol,
including the newline the regex requires right after it. -/
def invokeErrorMarker : String := "--datasource-invoke-error--\n"

/-- Capture group of the structured-error regex in `invocationError`. -/
def matchInvokeErrorPayload (msg : String) : Option String :=
  (findAfter invokeErrorMarker.toList msg.toList).map String.mk

/-- The JSON payload decoded from a structured error blob, with the fields
`invocationError` reads: `message`, `stack`, `origin` and the open
`properties` object. -/
structure ErrorData where
  message : String
  stack : String
  origin : String
  properties : List (String × String)
deriving DecidableEq, Repr

/-- The property-copy loop over `errorData.properties`. -/
def applyProps (ps : List (String × String)) (e : ErrObj) : ErrObj :=
  List.foldl (fun a kv => ErrObj.set a kv.1 kv.2) e ps

/-- The `missingConnector(err)` helper: if the message matches the
LoopBack-connector-not-installed regex and the capture equals the
configured connector, build a fresh error with the fixed human-readable
message, `name` set and `code` `ER_INVALID_CONNECTOR`. -/
def missingConnector (connector : String) (err : ErrObj) : Option ErrObj :=
  match missingConnectorMatch err.message with
  | some nm =>
    if nm = connector then
      some { message := "Connector \"" ++ connector ++ "\" is not installed.",
             props := [("name", "InvocationError"),
                       ("code", "ER_INVALID_CONNECTOR")] }
    else none
  | none => none

/-- The `invocationError(err)` helper: find the marker, hand the capture to
the external `parse` (JSON.parse); on success rebuild the error from the
decoded data -- `new Error(message)`, `name`, the `properties` copy loop,
then `origin` and `stack` assignments in that order. A parse failure is
caught, logged and reported as no match. -/
def invocationError (parse : String → Option ErrorData) (err : ErrObj) :
    Option ErrObj :=
  match matchInvokeErrorPayload err.message with
  | none => none
  | some payload =>
    match parse payload with
    | none => none
    | some d =>
      some (ErrObj.set (ErrObj.set
        (applyProps d.properties
          (ErrObj.set (mkError d.message) "name" "InvocationError"))
        "origin" d.origin) "stack" d.stack)

/-- ClassifiedError kinds of the spec taxonomy, realized as which branch of
the expression `missingConnector(err) || invocationError(err) || err`
produced the delivered error. -/
inductive Kind where
  | missingConnector : Kind
  | invocationError : Kind
  | generic : Kind
deriving DecidableEq, Repr

/-- The error classifier applied in the message handler: first match wins,
falling through to the original error unchanged. -/
def classify (parse : String → Option ErrorData) (connector : String)
    (err : ErrObj) : Kind × ErrObj :=
  match missingConnector connector err with
  | some e => (Kind.missingConnector, e)
  | none =>
    match invocationError parse err with
    | some e => (Kind.invocationError, e)
    | none => (Kind.generic, err)

/-- One message from the worker: `error` and `callbackArgs` fields; a
`none` error models an absent (or otherwise falsy) `msg.error`. -/
structure Msg where
  error : Option ErrObj
  callbackArgs : List JVal
deriving DecidableEq, Repr

/-- One invocation of the completion callback together with its argument
list: either the classified error as sole argument, or the message's
`callbackArgs` applied positionally. -/
inductive CallbackCall where
  | errorCall : Kind → ErrObj → CallbackCall
  | successCall : List JVal → CallbackCall
deriving DecidableEq, Repr

/-- Body of the one-shot message handler registered on the child. -/
def handleMessage (parse : String → Option ErrorData) (connector : String)
    (m : Msg) : CallbackCall :=
  match m.error with
  | some err =>
    let ke := classify parse connector err
    CallbackCall.errorCall ke.1 ke.2
  | none => CallbackCall.successCall m.callbackArgs

/-- Node `EventEmitter.once` semantics: the listener starts registered
(`true`) and is removed as it fires, so later messages find no listener.
Produces the list of callback invocations for a worker message stream. -/
def processMessages (parse : String → Option ErrorData) (connector : String) :
    Bool → List Msg → List CallbackCall
  | _, [] => []
  | true, m :: rest =>
    handleMessage parse connector m :: processMessages parse connector false rest
  | false, _ :: rest => processMessages parse connector false rest

/-- A positional argument of `invokeMethodInWorkspace` after the method
name has been shifted off: `undefined`, a callable, or any other value. -/
inductive RawArg where
  | undef : RawArg
  | func : RawArg
  | value : String → RawArg
deriving DecidableEq, Repr

/-- The trailing-callback extraction: if the final positional argument is
callable it is popped off; the Bool records whether an explicit callback
was found (otherwise the default logging callback is synthesized). -/
def extractCallback (args : List RawArg) : List RawArg × Bool :=
  match args.getLast? with
  | some RawArg.func => (args.dropLast, true)
  | _ => (args, false)

/-- The filter removing optional parameters passed as `undefined`. -/
def removeUndefined (args : List RawArg) : List RawArg :=
  List.filter (fun a => a != RawArg.undef) args

/-- The argument normalizer of `invokeMethodInWorkspace`: extract the
trailing callback, then drop `undefined` entries. -/
def normalizeArgs (args : List RawArg) : List RawArg × Bool :=
  (removeUndefined (extractCallback args).1, (extractCallback args).2)

/-- The synthesized default callback `invokeComplete`: its only observable
effect is the list of errors it logs via `console.error`. -/
def invokeComplete (err : Option ErrObj) : List ErrObj :=
  match err with
  | some e => [e]
  | none => []

/-- The message `{dir, dataSourceName, methodName, args}` sent to the
spawned worker. -/
structure OperationRequest where
  dir : String
  dataSourceName : String
  methodName : String
  args : List RawArg
deriving DecidableEq, Repr

/-- `invokeMethodInWorkspace`: normalize the arguments, fork the worker,
register the one-shot message handler and send one request. The worker is
represented by the list of messages it sends back; the result is the
request sent together with the callback invocations the handler makes. -/
def invokeMethodInWorkspace (parse : String → Option ErrorData)
    (dir dsName connector methodName : String) (rawArgs : List RawArg)
    (workerMsgs : List Msg) : OperationRequest × List CallbackCall :=
  ({ dir := dir, dataSourceName := dsName, methodName := methodName,
     args := (normalizeArgs rawArgs).1 },
   processMessages parse connector true workerMsgs)

/-- The `{message, code, details, stack}` record passed as third callback
argument by the prototype `testConnection` on a connector-level failure. -/
structure PingDetails where
  message : Option String
  code : Option String
  details : Option String
  stack : Option String
deriving DecidableEq, Repr

/-- Outcome delivered by the prototype `testConnection` callback:
`success` is `cb(null, true)`, `failureData d` is `cb(null, false, d)`,
and `hardError e` is `cb(e)`. -/
inductive TestConnectionResult where
  | success : TestConnectionResult
  | failureData : PingDetails → TestConnectionResult
  | hardError : JVal → TestConnectionResult
deriving DecidableEq, Repr

/-- The callback body of `DataSourceDefinition.prototype.testConnection`:
no error means success; an error whose `origin` is `invoke` is reported as
a normal negative result with details; anything else is a hard error. -/
def testConnectionCallback (err : JVal) : TestConnectionResult :=
  if !(truthy err) then TestConnectionResult.success
  else if jGet err "origin" = some "invoke" then
    TestConnectionResult.failureData
      { message := jGet err "message", code := jGet err "code",
        details := jGet err "details", stack := jGet err "stack" }
  else TestConnectionResult.hardError err

/-- Which external call a facade operation makes: spawn the isolated
worker through `invokeMethodInWorkspace`, or call a method directly (in
the calling process) on the data source built by `toDataSource()`. -/
inductive FacadeAction where
  | invokeInWorkspace : String → List RawArg → FacadeAction
  | dataSourceCall : String → List RawArg → FacadeAction
deriving DecidableEq, Repr

/-- `getSchema(options, cb)` delegates to
`this.toDataSource().discoverModelDefinitions(options, cb)`. -/
def getSchema (options : RawArg) : FacadeAction :=
  FacadeAction.dataSourceCall "discoverModelDefinitions" [options]

/-- `discoverModelDefinition(name, options, cb)` delegates to
`this.toDataSource().discoverSchemas(name, options, cb)`. -/
def discoverModelDefinition (nm options : RawArg) : FacadeAction :=
  FacadeAction.dataSourceCall "discoverSchemas" [nm, options]

/-- `automigrate(modelName, cb)` routes through the worker channel. -/
def automigrate (modelName : RawArg) : FacadeAction :=
  FacadeAction.invokeInWorkspace "automigrate" [modelName]

/-- `autoupdate(modelName, cb)` routes through the worker channel. -/
def autoupdate (modelName : RawArg) : FacadeAction :=
  FacadeAction.invokeInWorkspace "autoupdate" [modelName]

/-- The error built in the catch branch of the static `testConnection`. -/
def cannotConnectError : ErrObj :=
  mkError ("Cannot connect to the data source." ++
    " Ensure the configuration is valid and the connector is installed.")

/-- Trace of the static `testConnection`: either the callback fires
synchronously inside the catch block before the call returns, or `ping`
was started and the callback is deferred to its completion. -/
inductive StaticTestResult where
  | syncErrorCallback : ErrObj → StaticTestResult
  | pingStarted : StaticTestResult
deriving DecidableEq, Repr

/-- Static `DataSourceDefinition.testConnection(data, cb)`: whether the
external construction `new DataSourceDefinition(data).toDataSource()`
throws is the boundary parameter. -/
def staticTestConnection (constructionThrows : Bool) : StaticTestResult :=
  if constructionThrows then
    StaticTestResult.syncErrorCallback cannotConnectError
  else StaticTestResult.pingStarted

/-- Whether the trace contains a callback invocation that happens before
the operation call returns. -/
def StaticTestResult.invokesCallbackSynchronously : StaticTestResult → Bool
  | StaticTestResult.syncErrorCallback _ => true
  | StaticTestResult.pingStarted => false

/-- JSON.parse stand-in used where the structured payload path is never
reached on the inputs under consideration. -/
def parse0 : String → Option ErrorData := fun _ => none

/-- A message matching the bare pattern of the spec claim (no `LoopBack `
prefix) with the connector name `mysql`. -/
def errNoPrefix : ErrObj :=
  mkError "connector \"mysql\" is not installed"

/-- The full worker message the code's regex actually requires. -/
def errLoopBack : ErrObj :=
  mkError "LoopBack connector \"mysql\" is not installed"

/-- Same shape but naming a connector other than the configured one. -/
def errLoopBackOther : ErrObj :=
  mkError "LoopBack connector \"redis\" is not installed"

/-- The classified error `missingConnector` builds for connector `mysql`. -/
def mysqlMissingErr : ErrObj :=
  { message := "Connector \"mysql\" is not installed.",
    props := [("name", "InvocationError"), ("code", "ER_INVALID_CONNECTOR")] }

/-- A well-formed structured-error JSON blob. -/
def blobW : String :=
  "\x7b\"message\":\"worker failed\",\"stack\":\"trace\",\"origin\":\"invoke\",\"properties\":\x7b\"code\":\"ECODE\"\x7d\x7d"

/-- The decoding of `blobW`, exactly as JSON.parse would produce it. -/
def dataW : ErrorData :=
  { message := "worker failed", stack := "trace", origin := "invoke",
    properties := [("code", "ECODE")] }

/-- JSON.parse restricted to the single valid blob it is applied to. -/
def parseW : String → Option ErrorData := fun s =>
  if s = blobW then some dataW else none

/-- A raw error carrying the marker followed by the valid blob. -/
def errW : ErrObj :=
  mkError ("boom\n--datasource-invoke-error--\n" ++ blobW)

/-- A raw error carrying the marker followed by malformed JSON. -/
def errBad : ErrObj :=
  mkError ("--datasource-invoke-error--\nnot json")

/-- A valid JSON blob whose `properties` object itself carries a `message`
key that differs from the top-level `message` field. -/
def blobCE : String :=
  "\x7b\"message\":\"orig\",\"stack\":\"st\",\"origin\":\"invoke\",\"properties\":\x7b\"message\":\"evil\"\x7d\x7d"

/-- The decoding of `blobCE`, exactly as JSON.parse would produce it:
its top-level `message` field is `orig` while its `properties` object
carries `message` mapped to `evil`. -/
def dataCE : ErrorData :=
  { message := "orig", stack := "st", origin := "invoke",
    properties := [("message", "evil")] }

/-- JSON.parse restricted to `blobCE`, decoding it as JSON.parse would. -/
def parseCE : String → Option ErrorData := fun s =>
  if s = blobCE then some dataCE else none

/-- A raw error carrying the marker followed by `blobCE`. -/
def errCE : ErrObj := mkError (invokeErrorMarker ++ blobCE)

/-- A classified error with origin `invoke`, as `testConnection` receives
after a connector-level ping failure. -/
def invokeErrObj : ErrObj :=
  { message := "connect failed",
    props := [("origin", "invoke"), ("code", "ECONNREFUSED")] }

/-- An infrastructure error without the `invoke` origin. -/
def otherErrObj : ErrObj := mkError "spawn failure"

/-- A successful worker reply. -/
def msgA : Msg := { error := none, callbackArgs := [JVal.jbool true] }

/-- A second, later worker reply that must be ignored. -/
def msgB : Msg := { error := none, callbackArgs := [JVal.jbool false] }

/-- Reading back the key just assigned yields the assigned value. -/
theorem getProp_set_self (o : List (String × String)) (k v : String) :
    getProp (setProp o k v) k = some v := by
  induction o with
  | nil => simp [setProp, getProp]
  | cons p rest ih =>
    cases p with
    | mk k1 v1 =>
      by_cases h : k1 = k
      · subst h; simp [setProp, getProp]
      · simp [setProp, getProp, h, ih]

/-- Assignment leaves every other key unchanged. -/
theorem getProp_set_other (o : List (String × String)) (k kx v : String)
    (h : kx ≠ k) : getProp (setProp o k v) kx = getProp o kx := by
  induction o with
  | nil => simp [setProp, getProp, Ne.symm h]
  | cons p rest ih =>
    cases p with
    | mk k1 v1 =>
      by_cases h1 : k1 = k
      · subst h1; simp [setProp, getProp, Ne.symm h]
      · by_cases h2 : k1 = kx
        · subst h2; simp [setProp, getProp, h1]
        · simp [setProp, getProp, h1, h2, ih]

/-- The `message` property always reads back the `message` field. -/
theorem ErrObj.get_message (e : ErrObj) :
    ErrObj.get e "message" = some e.message := by
  simp [ErrObj.get]

/-- Reading back an assigned property on an error object. -/
theorem ErrObj.get_set_self (e : ErrObj) (k v : String) :
    ErrObj.get (ErrObj.set e k v) k = some v := by
  by_cases h : k = "message"
  · subst h; simp [ErrObj.set, ErrObj.get]
  · simp [ErrObj.set, ErrObj.get, h, getProp_set_self]

/-- Assignment on an error object leaves other properties unchanged. -/
theorem ErrObj.get_set_other (e : ErrObj) (k kx v : String) (h : kx ≠ k) :
    ErrObj.get (ErrObj.set e k v) kx = ErrObj.get e kx := by
  by_cases h1 : k = "message"
  · subst h1
    simp [ErrObj.set, ErrObj.get, h]
  · by_cases h2 : kx = "message"
    · subst h2; simp [ErrObj.set, ErrObj.get, h1]
    · simp [ErrObj.set, ErrObj.get, h1, h2, getProp_set_other _ _ _ _ h]

/-- Unfolding the property-copy loop one step. -/
theorem applyProps_cons (p : String × String) (rest : List (String × String))
    (e : ErrObj) :
    applyProps (p :: rest) e = applyProps rest (ErrObj.set e p.1 p.2) := rfl

/-- The copy loop does not touch keys outside the copied property list. -/
theorem applyProps_get_of_not_mem :
    ∀ (ps : List (String × String)) (e : ErrObj) (k : String),
      k ∉ ps.map Prod.fst →
      ErrObj.get (applyProps ps e) k = ErrObj.get e k := by
  intro ps
  induction ps with
  | nil => intro e k _; rfl
  | cons p rest ih =>
    intro e k h
    rw [List.map_cons, List.mem_cons] at h
    push_neg at h
    rw [applyProps_cons, ih _ _ h.2, ErrObj.get_set_other _ _ _ _ h.1]

/-- With pairwise-distinct keys (JSON object semantics), every copied
property reads back its value after the loop. -/
theorem applyProps_get_of_mem :
    ∀ (ps : List (String × String)) (e : ErrObj) (k v : String),
      (ps.map Prod.fst).Nodup → (k, v) ∈ ps →
      ErrObj.get (applyProps ps e) k = some v := by
  intro ps
  induction ps with
  | nil => intro e k v _ h; simp at h
  | cons p rest ih =>
    intro e k v hnd h
    rw [List.map_cons, List.nodup_cons] at hnd
    rcases List.mem_cons.mp h with heq | hmem
    · cases p with
      | mk k1 v1 =>
        cases heq
        rw [applyProps_cons]
        rw [applyProps_get_of_not_mem _ _ _ hnd.1]
        exact ErrObj.get_set_self e k v
    · rw [applyProps_cons]
      exact ih _ _ _ hnd.2 hmem

/-- Once the one-shot listener has fired, no further message produces a
callback invocation. -/
theorem processMessages_inactive (parse : String → Option ErrorData)
    (connector : String) :
    ∀ msgs : List Msg, processMessages parse connector false msgs = [] := by
  intro msgs
  induction msgs with
  | nil => rfl
  | cons m rest ih => simpa [processMessages] using ih

/-- Closed form of the argument normalizer. -/
theorem normalizeArgs_eq (args : List RawArg) :
    normalizeArgs args =
      (List.filter (fun a => a != RawArg.undef)
        (if args.getLast? = some RawArg.func then args.dropLast else args),
       if args.getLast? = some RawArg.func then true else false) := by
  unfold normalizeArgs extractCallback removeUndefined
  rcases h : args.getLast? with _ | a
  · simp [h]
  · cases a <;> simp [h]

/-- C1 counterexample: a worker reply with no error and
`callbackArgs = ["ok"]` makes `invokeMethodInWorkspace` invoke the
completion callback with the single argument `"ok"` (the argument list is
applied positionally), not with the pair `(null, "ok")` the claim states. -/
theorem c1_counterexample :
    (invokeMethodInWorkspace parse0 "/ws" "db" "mysql" "automigrate" []
        [{ error := none, callbackArgs := [JVal.jstr "ok"] }]).2 =
      [CallbackCall.successCall [JVal.jstr "ok"]] ∧
    CallbackCall.successCall [JVal.jstr "ok"] ≠
      CallbackCall.successCall [JVal.jnull, JVal.jstr "ok"] := by
  decide

/-- C1 (amended): when the worker's first reply has no error field, the
completion callback is invoked exactly once with `callbackArgs` applied
positionally; for `callbackArgs = [x]` it receives the single argument
`x`, and it receives the pair `(null, x)` exactly when `callbackArgs` is
`[null, x]`. -/
theorem c1_callback_args_applied_positionally
    (parse : String → Option ErrorData)
    (dir ds connector methodName : String) (rawArgs : List RawArg)
    (x : JVal) (rest : List Msg) :
    (invokeMethodInWorkspace parse dir ds connector methodName rawArgs
        ({ error := none, callbackArgs := [x] } :: rest)).2 =
      [CallbackCall.successCall [x]] ∧
    (invokeMethodInWorkspace parse dir ds connector methodName rawArgs
        ({ error := none, callbackArgs := [JVal.jnull, x] } :: rest)).2 =
      [CallbackCall.successCall [JVal.jnull, x]] := by
  constructor <;>
    simp [invokeMethodInWorkspace, processMessages, handleMessage,
      processMessages_inactive]

/-- C2 counterexample: the message `connector "mysql" is not installed`
matches the claim's pattern with the captured name equal to the configured
connector `mysql`, yet the classifier leaves it Generic, because the
code's regex additionally requires the text `LoopBack ` before
`connector`. -/
theorem c2_counterexample :
    classify parse0 "mysql" errNoPrefix = (Kind.generic, errNoPrefix) ∧
    Kind.generic ≠ Kind.missingConnector := by
  decide

/-- C2 (amended): for every raw worker error whose message matches the
code's pattern `LoopBack connector "<name>" is not installed` with the
captured `<name>` equal to the configured connector, the classifier
produces a MissingConnector-kind error whose message is exactly
`Connector "<name>" is not installed.` and whose `code` is
`ER_INVALID_CONNECTOR`; if the captured name differs from the configured
connector, the rule does not fire. -/
theorem c2_missing_connector_rule (parse : String → Option ErrorData)
    (connector nm : String) (err : ErrObj)
    (h : missingConnectorMatch err.message = some nm) :
    (nm = connector →
      classify parse connector err =
        (Kind.missingConnector,
         { message := "Connector \"" ++ connector ++ "\" is not installed.",
           props := [("name", "InvocationError"),
                     ("code", "ER_INVALID_CONNECTOR")] })) ∧
    (nm ≠ connector → missingConnector connector err = none) := by
  constructor
  · intro he; subst he
    simp [classify, missingConnector, h]
  · intro hne
    simp [missingConnector, h, hne]

/-- C2 witness: the full LoopBack message naming the configured connector
`mysql` is classified MissingConnector with the fixed message and code,
while the same message naming `redis` leaves the rule unfired. -/
theorem c2_witness :
    classify parse0 "mysql" errLoopBack = (Kind.missingConnector, mysqlMissingErr) ∧
    missingConnector "mysql" errLoopBackOther = none := by
  constructor
  · exact ((c2_missing_connector_rule parse0 "mysql" "mysql" errLoopBack
      (by decide)).1 rfl).trans (by decide)
  · exact (c2_missing_connector_rule parse0 "mysql" "redis" errLoopBackOther
      (by decide)).2 (by decide)

/-- C3 counterexample: a valid blob whose `properties` object carries its
own `message` key. The classifier yields the InvocationError kind, but the
resulting error's message is the properties value `evil`, not the blob's
top-level message field `orig`, because the property-copy loop runs after
`new Error(errorData.message)` and overwrites the message. -/
theorem c3_counterexample :
    parseCE blobCE = some dataCE ∧ dataCE.message = "orig" ∧
    (classify parseCE "mysql" errCE).1 = Kind.invocationError ∧
    (classify parseCE "mysql" errCE).2.message = "evil" ∧
    (classify parseCE "mysql" errCE).2.message ≠ "orig" := by
  decide

/-- C3 (amended): provided the missing-connector rule did not fire first,
a raw error whose message contains the marker followed by a payload that
parses yields the InvocationError kind; the rebuilt error's `stack` and
`origin` are the blob's fields (assigned last, they win over same-named
`properties` entries), every `properties` key other than `origin` and
`stack` reads back its copied value, and the message equals the blob's
message field unless the `properties` object itself has a `message` key;
when the payload fails to parse the classifier never throws and returns
the original error unchanged with the Generic kind. -/
theorem c3_invocation_error_classification
    (parse : String → Option ErrorData) (connector : String) (err : ErrObj)
    (payload : String) :
    (∀ d : ErrorData,
      missingConnector connector err = none →
      matchInvokeErrorPayload err.message = some payload →
      parse payload = some d →
      (d.properties.map Prod.fst).Nodup →
      ((classify parse connector err).1 = Kind.invocationError ∧
       ErrObj.get (classify parse connector err).2 "stack" = some d.stack ∧
       ErrObj.get (classify parse connector err).2 "origin" = some d.origin ∧
       ("message" ∉ d.properties.map Prod.fst →
         (classify parse connector err).2.message = d.message) ∧
       (∀ k v, (k, v) ∈ d.properties → k ≠ "origin" → k ≠ "stack" →
         ErrObj.get (classify parse connector err).2 k = some v))) ∧
    (missingConnector connector err = none →
     matchInvokeErrorPayload err.message = some payload →
     parse payload = none →
     classify parse connector err = (Kind.generic, err)) := by
  constructor
  · intro d hmc hmatch hparse hnd
    have hres : classify parse connector err =
        (Kind.invocationError,
         ErrObj.set (ErrObj.set
           (applyProps d.properties
             (ErrObj.set (mkError d.message) "name" "InvocationError"))
           "origin" d.origin) "stack" d.stack) := by
      simp [classify, hmc, invocationError, hmatch, hparse]
    refine ⟨by rw [hres], ?_, ?_, ?_, ?_⟩
    · rw [hres]
      exact ErrObj.get_set_self _ _ _
    · rw [hres]
      rw [ErrObj.get_set_other _ _ _ _ (by decide)]
      exact ErrObj.get_set_self _ _ _
    · intro hmem
      have h1 : ErrObj.get (classify parse connector err).2 "message" =
          some d.message := by
        rw [hres]
        rw [ErrObj.get_set_other _ _ _ _ (by decide),
          ErrObj.get_set_other _ _ _ _ (by decide),
          applyProps_get_of_not_mem _ _ _ hmem,
          ErrObj.get_set_other _ _ _ _ (by decide)]
        exact ErrObj.get_message _
      have h2 := ErrObj.get_message (classify parse connector err).2
      rw [h1] at h2
      exact (Option.some.inj h2).symm
    · intro k v hkv hko hks
      rw [hres]
      rw [ErrObj.get_set_other _ _ _ _ hks, ErrObj.get_set_other _ _ _ _ hko]
      exact applyProps_get_of_mem _ _ _ _ hnd hkv
  · intro hmc hmatch hparse
    simp [classify, hmc, invocationError, hmatch, hparse]

/-- C3 witness: the marker followed by a valid blob is classified
InvocationError with the copied `code` property and the blob's stack,
and the marker followed by malformed JSON is left Generic. -/
theorem c3_witness :
    (classify parseW "mysql" errW).1 = Kind.invocationError ∧
    ErrObj.get (classify parseW "mysql" errW).2 "code" = some "ECODE" ∧
    ErrObj.get (classify parseW "mysql" errW).2 "stack" = some "trace" ∧
    classify parseW "mysql" errBad = (Kind.generic, errBad) := by
  have h := (c3_invocation_error_classification parseW "mysql" errW blobW).1
    dataW (by decide) (by decide) (by decide) (by decide)
  have hbad := (c3_invocation_error_classification parseW "mysql" errBad
    "not json").2 (by decide) (by decide) (by decide)
  exact ⟨h.1, h.2.2.2.2 "code" "ECODE" (by decide) (by decide) (by decide),
    h.2.1, hbad⟩

/-- C4: the prototype `testConnection` completion handler reports success
as `(null, true)` when ping delivers no (falsy) error, reports an error
whose `origin` is `invoke` as the normal negative result
`(null, false, {message, code, details, stack})` taken from that error --
never a hard error -- and passes every other error to the callback as its
sole argument. -/
theorem c4_test_connection_callback :
    (∀ err : JVal, truthy err = false →
      testConnectionCallback err = TestConnectionResult.success) ∧
    (∀ e : ErrObj, ErrObj.get e "origin" = some "invoke" →
      testConnectionCallback (JVal.jerr e) =
        TestConnectionResult.failureData
          { message := some e.message, code := ErrObj.get e "code",
            details := ErrObj.get e "details",
            stack := ErrObj.get e "stack" }) ∧
    (∀ e : ErrObj, ErrObj.get e "origin" ≠ some "invoke" →
      testConnectionCallback (JVal.jerr e) =
        TestConnectionResult.hardError (JVal.jerr e)) := by
  refine ⟨?_, ?_, ?_⟩
  · intro err h
    simp [testConnectionCallback, h]
  · intro e h
    simp [testConnectionCallback, truthy, jGet, h, ErrObj.get_message]
  · intro e h
    simp [testConnectionCallback, truthy, jGet, h]

/-- C4 witness: a falsy ping outcome yields success, the concrete
invoke-origin error yields the negative result with its details, and the
infrastructure error is passed through as a hard error. -/
theorem c4_witness :
    testConnectionCallback JVal.jnull = TestConnectionResult.success ∧
    testConnectionCallback (JVal.jerr invokeErrObj) =
      TestConnectionResult.failureData
        { message := some "connect failed", code := some "ECONNREFUSED",
          details := none, stack := none } ∧
    testConnectionCallback (JVal.jerr otherErrObj) =
      TestConnectionResult.hardError (JVal.jerr otherErrObj) := by
  refine ⟨c4_test_connection_callback.1 JVal.jnull rfl, ?_, ?_⟩
  · exact (c4_test_connection_callback.2.1 invokeErrObj (by decide)).trans
      (by decide)
  · exact c4_test_connection_callback.2.2 otherErrObj (by decide)

/-- C5 counterexample: a worker that dies before sending any message (the
empty message stream) produces no callback invocation at all -- the caller
gets silence, not the exactly-one Generic error callback the claim
states. -/
theorem c5_counterexample :
    (invokeMethodInWorkspace parse0 "/ws" "db" "mysql" "ping" []
        ([] : List Msg)).2 = [] ∧
    (([] : List CallbackCall).length ≠ 1) := by
  decide

/-- C5 (amended): `invokeMethodInWorkspace` delivers a callback exactly
when the worker sends at least one message; if the worker fails to start
or terminates before sending any message, the caller receives no callback
at all (the gap the spec flags as to be closed by a reimplementation). -/
theorem c5_no_callback_without_message (parse : String → Option ErrorData)
    (dir ds connector methodName : String) (rawArgs : List RawArg)
    (workerMsgs : List Msg) :
    (invokeMethodInWorkspace parse dir ds connector methodName rawArgs
        workerMsgs).2 = [] ↔ workerMsgs = [] := by
  cases workerMsgs with
  | nil => simp [invokeMethodInWorkspace, processMessages]
  | cons m rest => simp [invokeMethodInWorkspace, processMessages]

/-- C5 witness: the silent worker yields the empty delivery list. -/
theorem c5_witness :
    (invokeMethodInWorkspace parse0 "/ws" "db" "mysql" "ping" []
        ([] : List Msg)).2 = [] :=
  (c5_no_callback_without_message parse0 "/ws" "db" "mysql" "ping" []
    []).mpr rfl

/-- C6: only the first message received from the worker is treated as the
operation response -- the delivery list for any stream starting with `m`
is exactly the one handler invocation for `m` -- and the completion
callback is invoked at most once per invocation. -/
theorem c6_at_most_once_delivery (parse : String → Option ErrorData)
    (dir ds connector methodName : String) (rawArgs : List RawArg) :
    (∀ (m : Msg) (rest : List Msg),
      (invokeMethodInWorkspace parse dir ds connector methodName rawArgs
          (m :: rest)).2 = [handleMessage parse connector m]) ∧
    (∀ workerMsgs : List Msg,
      ((invokeMethodInWorkspace parse dir ds connector methodName rawArgs
          workerMsgs).2).length ≤ 1) := by
  constructor
  · intro m rest
    simp [invokeMethodInWorkspace, processMessages, processMessages_inactive]
  · intro workerMsgs
    cases workerMsgs with
    | nil => simp [invokeMethodInWorkspace, processMessages]
    | cons m rest =>
      simp [invokeMethodInWorkspace, processMessages, processMessages_inactive]

/-- C6 witness: with two worker replies, only the first is delivered. -/
theorem c6_witness :
    (invokeMethodInWorkspace parse0 "/ws" "db" "mysql" "ping" []
        [msgA, msgB]).2 = [handleMessage parse0 "mysql" msgA] :=
  (c6_at_most_once_delivery parse0 "/ws" "db" "mysql" "ping" []).1 msgA [msgB]

/-- C7: the argument normalizer extracts the final positional argument as
the completion callback precisely when it is callable (synthesizing the
default otherwise), removes exactly the `undefined` entries from the
remainder, preserves the relative order of what remains (the clean list is
a sublist of the original), and the synthesized default callback only logs
the error it receives. -/
theorem c7_argument_normalizer (args : List RawArg) :
    ((normalizeArgs args).2 = true ↔ args.getLast? = some RawArg.func) ∧
    (normalizeArgs args).1 =
      List.filter (fun a => a != RawArg.undef)
        (if args.getLast? = some RawArg.func then args.dropLast else args) ∧
    List.Sublist (normalizeArgs args).1 args ∧
    (∀ a ∈ (normalizeArgs args).1, a ≠ RawArg.undef) ∧
    invokeComplete none = [] ∧
    (∀ e : ErrObj, invokeComplete (some e) = [e]) := by
  have he := normalizeArgs_eq args
  refine ⟨?_, ?_, ?_, ?_, rfl, fun e => rfl⟩
  · rw [he]
    by_cases h : args.getLast? = some RawArg.func <;> simp [h]
  · rw [he]
  · rw [he]
    by_cases h : args.getLast? = some RawArg.func
    · rw [if_pos h]
      exact (List.filter_sublist _).trans (List.dropLast_sublist args)
    · rw [if_neg h]
      exact List.filter_sublist args
  · intro a ha
    rw [he] at ha
    have hm := (List.mem_filter.mp ha).2
    simpa using hm

/-- C7 witness: on `[value "a", undefined, callback]` the callback is
extracted and the `undefined` entry dropped, keeping `value "a"`. -/
theorem c7_witness :
    (normalizeArgs [RawArg.value "a", RawArg.undef, RawArg.func]).2 = true ∧
    RawArg.value "a" ≠ RawArg.undef :=
  ⟨(c7_argument_normalizer [RawArg.value "a", RawArg.undef,
      RawArg.func]).1.mpr (by decide),
   (c7_argument_normalizer [RawArg.value "a", RawArg.undef,
      RawArg.func]).2.2.2.1 (RawArg.value "a") (by decide)⟩

/-- C8 counterexample: when constructing the data source throws, the
static `testConnection` invokes its callback synchronously inside the
catch block, before the call returns -- no deferral by a scheduling tick
happens on this path, contrary to the claim. -/
theorem c8_counterexample :
    StaticTestResult.invokesCallbackSynchronously (staticTestConnection true) =
      true := by
  decide

/-- C8 (amended): the early-throw path of the static `testConnection`
calls the completion callback synchronously, before the call returns, with
the fixed cannot-connect error; only the non-throwing path defers the
callback to the completion of `ping`. -/
theorem c8_static_sync_callback :
    staticTestConnection true =
      StaticTestResult.syncErrorCallback cannotConnectError ∧
    StaticTestResult.invokesCallbackSynchronously (staticTestConnection true) =
      true ∧
    staticTestConnection false = StaticTestResult.pingStarted ∧
    StaticTestResult.invokesCallbackSynchronously (staticTestConnection false) =
      false := by
  exact ⟨rfl, rfl, rfl, rfl⟩

/-- C9: `getSchema` and `discoverModelDefinition` are in-process
pass-throughs to `discoverModelDefinitions` and `discoverSchemas` on the
data source built by `toDataSource()`: they never spawn the isolated
worker, and their arguments are forwarded verbatim -- even an `undefined`
options value is kept, showing the argument normalizer is not applied. -/
theorem c9_discovery_runs_in_process (nm options : RawArg) :
    discoverModelDefinition nm options =
      FacadeAction.dataSourceCall "discoverSchemas" [nm, options] ∧
    getSchema options =
      FacadeAction.dataSourceCall "discoverModelDefinitions" [options] ∧
    (∀ (m : String) (as : List RawArg),
      discoverModelDefinition nm options ≠ FacadeAction.invokeInWorkspace m as) ∧
    (∀ (m : String) (as : List RawArg),
      getSchema options ≠ FacadeAction.invokeInWorkspace m as) ∧
    getSchema RawArg.undef =
      FacadeAction.dataSourceCall "discoverModelDefinitions" [RawArg.undef] := by
  refine ⟨rfl, rfl, ?_, ?_, rfl⟩
  · intro m as h
    simp [discoverModelDefinition] at h
  · intro m as h
    simp [getSchema] at h

/-- C9 witness: a concrete `getSchema` call is the in-process discovery
delegation. -/
theorem c9_witness :
    getSchema (RawArg.value "opts") =
      FacadeAction.dataSourceCall "discoverModelDefinitions"
        [RawArg.value "opts"] :=
  (c9_discovery_runs_in_process (RawArg.value "n") (RawArg.value "opts")).2.1

/-- C10: every error the classifier's missing-connector rule builds is a
fresh error object without an `origin` property, so its origin is never
`invoke`; consequently the prototype `testConnection` handler surfaces it
as a hard error callback, never as the normal negative result. -/
theorem c10_missing_connector_is_hard_error (connector : String)
    (err e : ErrObj) (h : missingConnector connector err = some e) :
    ErrObj.get e "origin" ≠ some "invoke" ∧
    testConnectionCallback (JVal.jerr e) =
      TestConnectionResult.hardError (JVal.jerr e) := by
  rcases hm : missingConnectorMatch err.message with _ | nm
  · simp [missingConnector, hm] at h
  · simp only [missingConnector, hm] at h
    by_cases hc : nm = connector
    · rw [if_pos hc] at h
      simp only [Option.some.injEq] at h
      subst h
      constructor
      · simp [ErrObj.get, getProp]
      · simp [testConnectionCallback, truthy, jGet, ErrObj.get, getProp]
    · rw [if_neg hc] at h
      exact absurd h (by simp)

/-- C10 witness: the classified mysql missing-connector error carries no
`invoke` origin and is surfaced as a hard error. -/
theorem c10_witness :
    ErrObj.get mysqlMissingErr "origin" ≠ some "invoke" ∧
    testConnectionCallback (JVal.jerr mysqlMissingErr) =
      TestConnectionResult.hardError (JVal.jerr mysqlMissingErr) :=
  c10_missing_connector_is_hard_error "mysql" errLoopBack mysqlMissingErr
    (by decide)
